import Mathlib

/-!
Shallow embedding of the task-management backend (FastAPI routers under
`src/fastapi/routers/`) and proofs about its access-control and lifecycle
rules.

Modelling conventions:
* Timestamps (`TIMESTAMP` columns, `datetime` values) are modelled as `Nat`;
  the code only stores, copies and compares them.
* `DECIMAL(5,2)` hour fields are modelled as `Nat`: the code never computes
  with them, it only stores and copies them, so the carrier is irrelevant.
* SQL rows are Lean structures, tables are lists, and the SQLAlchemy session
  plus the database is a `DB` value; `db.query(X).filter(...).first()`
  becomes `List.find?`, `.all()` becomes `List.filter` plus a sort for
  `ORDER BY`, `.count()` becomes `List.length ∘ List.filter`.
* An endpoint returns `Except Err (α × DB)`: `Except.ok` carries the JSON
  payload and the committed database, `Err.http` is a raised
  `HTTPException(status_code, detail)` and `Err.py` an unhandled Python
  exception (e.g. an `AttributeError` from dereferencing `None`).  Every
  `raise` in the source happens before any mutation is committed, and a
  failed transaction is rolled back, so on an error the store keeps its
  previous value (`runDB`).
* Python truthiness of `Optional[int]` / `Optional[str]` values
  (`if task_data.parent_task_id:` and the like) is modelled by `pyTruthyNat`
  / `pyTruthyStr`: `None`, `0` and `""` are falsy.
* Pydantic update schemas distinguish a field that was not provided from a
  field explicitly set to `null` (`dict(exclude_unset=True)`): fields whose
  column is nullable are `Option (Option _)` (outer: provided?, inner: the
  value or `null`).  For fields of non-nullable columns (`title`) and for
  fields the code reads only through the attribute (`status`, where an
  absent field and an explicit `null` both read back as `None` and the
  `setattr` loop skips the field), a single `Option` suffices.  An explicit
  JSON `null` for a non-nullable column would be rejected by the store's
  NOT NULL constraint and is outside the model.
-/

namespace TodoApp

/-- Row of `projects` (`migration/models.py`, class `Project`). -/
structure Project where
  id : Nat
  name : String
  description : Option String
  color : String
  owner_id : Nat
  is_archived : Bool
  created_at : Nat
deriving Repr, DecidableEq

/-- Row of `project_members` (`migration/models.py`, class `ProjectMember`). -/
structure ProjectMember where
  id : Nat
  project_id : Nat
  user_id : Nat
  role : String
  joined_at : Nat
deriving Repr, DecidableEq

/-- Row of `tasks` (`migration/models.py`, class `Task`). -/
structure Task where
  id : Nat
  title : String
  description : Option String
  project_id : Nat
  parent_task_id : Option Nat
  assignee_id : Option Nat
  creator_id : Nat
  priority : String
  status : String
  start_date : Option Nat
  due_date : Option Nat
  completed_at : Option Nat
  estimated_hours : Option Nat
  actual_hours : Option Nat
  position : Option Nat
  is_archived : Bool
  created_at : Nat
deriving Repr, DecidableEq

/-- Row of `tags` (`migration/models.py`, class `Tag`); `project_id = none`
is a global tag. -/
structure Tag where
  id : Nat
  name : String
  color : String
  project_id : Option Nat
  created_by : Nat
  created_at : Nat
deriving Repr, DecidableEq

/-- Row of `task_tags` (`migration/models.py`, class `TaskTag`). -/
structure TaskTag where
  id : Nat
  task_id : Nat
  tag_id : Nat
deriving Repr, DecidableEq

/-- Row of `task_comments` (`migration/models.py`, class `TaskComment`). -/
structure TaskComment where
  id : Nat
  task_id : Nat
  user_id : Nat
  content : String
  is_edited : Bool
  created_at : Nat
deriving Repr, DecidableEq

/-- Row of `task_attachments` (`migration/models.py`, class `TaskAttachment`). -/
structure TaskAttachment where
  id : Nat
  task_id : Nat
  user_id : Nat
  filename : String
  original_filename : String
  file_path : String
  file_size : Nat
  mime_type : Option String
  created_at : Nat
deriving Repr, DecidableEq

/-- Row of `notifications` (`migration/models.py`, class `Notification`). -/
structure Notification where
  id : Nat
  user_id : Nat
  task_id : Option Nat
  type : String
  title : String
  message : Option String
  is_read : Bool
  scheduled_at : Option Nat
  sent_at : Option Nat
  created_at : Nat
deriving Repr, DecidableEq

/-- The relational store: one list per table the verified routes touch. -/
structure DB where
  projects : List Project
  members : List ProjectMember
  tasks : List Task
  tags : List Tag
  task_tags : List TaskTag
  comments : List TaskComment
  attachments : List TaskAttachment
  notifications : List Notification
deriving Repr, DecidableEq

/-- Raised errors: `http` is `HTTPException(status_code, detail)`, `py` an
unhandled Python exception escaping the route handler. -/
inductive Err where
  | http : Nat → String → Err
  | py : String → Err
deriving Repr, DecidableEq

/-- Result of a route handler: payload and committed store, or an error. -/
abbrev Outcome (α : Type) := Except Err (α × DB)

/-- Equality of handler results is decidable (used by the concrete
evaluations below). -/
instance {ε α : Type} [DecidableEq ε] [DecidableEq α] : DecidableEq (Except ε α) :=
  fun x y =>
    match x, y with
    | .ok a, .ok b =>
      if h : a = b then .isTrue (by rw [h])
      else .isFalse (by intro he; cases he; exact h rfl)
    | .error a, .error b =>
      if h : a = b then .isTrue (by rw [h])
      else .isFalse (by intro he; cases he; exact h rfl)
    | .ok _, .error _ => .isFalse (by intro he; cases he)
    | .error _, .ok _ => .isFalse (by intro he; cases he)

/-- Store state after running a handler from `db`: errors roll the
transaction back, so the store keeps its previous value. -/
def runDB (db : DB) (r : Outcome α) : DB :=
  match r with
  | .ok (_, db2) => db2
  | .error _ => db

/-- Python truthiness of an `Optional[int]`: `None` and `0` are falsy. -/
def pyTruthyNat (o : Option Nat) : Bool :=
  match o with
  | some n => n != 0
  | none => false

/-- Python truthiness of an `Optional[str]`: `None` and `""` are falsy. -/
def pyTruthyStr (o : Option String) : Bool :=
  match o with
  | some s => s != ""
  | none => false

/-- `db.query(Task).filter(Task.id == task_id).first()`. -/
def firstTask (db : DB) (task_id : Nat) : Option Task :=
  db.tasks.find? (fun t => t.id == task_id)

/-- `db.query(TaskComment).filter(TaskComment.id == comment_id).first()`. -/
def firstComment (db : DB) (comment_id : Nat) : Option TaskComment :=
  db.comments.find? (fun c => c.id == comment_id)

/-- `db.query(TaskAttachment).filter(TaskAttachment.id == attachment_id).first()`. -/
def firstAttachment (db : DB) (attachment_id : Nat) : Option TaskAttachment :=
  db.attachments.find? (fun a => a.id == attachment_id)

/-- `db.query(Tag).filter(Tag.id == tag_id).first()`. -/
def firstTag (db : DB) (tag_id : Nat) : Option Tag :=
  db.tags.find? (fun t => t.id == tag_id)

/-- The membership lookup used by every permission check:
`db.query(ProjectMember).filter(project_id == p, user_id == u).first()`. -/
def findMembership (db : DB) (project_id user_id : Nat) : Option ProjectMember :=
  db.members.find? (fun m => m.project_id == project_id && m.user_id == user_id)

/-- `Task.project_id.in_(accessible_projects)` where `accessible_projects`
is the subquery of project ids the user has a membership row for. -/
def accessibleProject (db : DB) (user_id project_id : Nat) : Bool :=
  db.members.any (fun m => m.user_id == user_id && m.project_id == project_id)

/-- In-place mutation of the row the session fetched: replace the first row
matching `p` (the primary-key lookup) by `f` of it. -/
def updateFirstBy (p : α → Bool) (f : α → α) : List α → List α
  | [] => []
  | x :: xs => if p x then f x :: xs else x :: updateFirstBy p f xs

/-- `db.delete(row)`: remove the first row matching `p` (primary-key match). -/
def removeFirstBy (p : α → Bool) : List α → List α
  | [] => []
  | x :: xs => if p x then xs else x :: removeFirstBy p xs

/-- Insertion step of the `ORDER BY` model. -/
def insertSorted (le : α → α → Bool) (x : α) : List α → List α
  | [] => [x]
  | y :: ys => if le x y then x :: y :: ys else y :: insertSorted le x ys

/-- Executable model of SQL `ORDER BY`: an insertion sort by `le`. -/
def sortBy (le : α → α → Bool) : List α → List α
  | [] => []
  | x :: xs => insertSorted le x (sortBy le xs)

/-- Request body of `POST /tasks` (`schemas.py`, `TaskCreate`/`TaskBase`). -/
structure TaskCreate where
  title : String
  description : Option String := none
  assignee_id : Option Nat := none
  priority : String := "medium"
  status : String := "todo"
  start_date : Option Nat := none
  due_date : Option Nat := none
  estimated_hours : Option Nat := none
  position : Option Nat := none
  project_id : Nat
  parent_task_id : Option Nat := none
deriving Repr, DecidableEq

/-- Request body of `PUT /tasks/{task_id}` (`schemas.py`, `TaskUpdate`).
Outer `none` = field not provided (absent from `dict(exclude_unset=True)`).
For `status` only the attribute view matters (see the header comment), and
`title` explicitly set to `null` is outside the model (NOT NULL column). -/
structure TaskUpdate where
  title : Option String := none
  description : Option (Option String) := none
  assignee_id : Option (Option Nat) := none
  priority : Option String := none
  status : Option String := none
  start_date : Option (Option Nat) := none
  due_date : Option (Option Nat) := none
  estimated_hours : Option (Option Nat) := none
  actual_hours : Option (Option Nat) := none
  position : Option (Option Nat) := none
  is_archived : Option Bool := none
deriving Repr, DecidableEq

/-- Attribute view of a three-state pydantic field: an absent field and a
field explicitly set to `null` both read back as `None`. -/
def attrView (x : Option (Option α)) : Option α :=
  x.getD none

/-- `check_project_access` (`routers/tasks.py` lines 12-24): return the
membership row or raise 403. -/
def check_project_access (db : DB) (project_id user_id : Nat) :
    Except Err ProjectMember :=
  match findMembership db project_id user_id with
  | none => .error (.http 403 "No access to this project")
  | some membership => .ok membership

/-- `create_task` (`routers/tasks.py` lines 26-68).  `now` is
`datetime.now()` for the `created_at` default, `new_id` the primary key the
store assigns. -/
def create_task (db : DB) (current_user : Nat) (task_data : TaskCreate)
    (now new_id : Nat) : Outcome Task :=
  match check_project_access db task_data.project_id current_user with
  | .error e => .error e
  | .ok _ =>
    -- if task_data.parent_task_id: parent must exist in the same project
    if pyTruthyNat task_data.parent_task_id then
      match firstTask db (task_data.parent_task_id.getD 0) with
      | none => .error (.http 400 "Parent task not found or not in the same project")
      | some parent_task =>
        if parent_task.project_id != task_data.project_id then
          .error (.http 400 "Parent task not found or not in the same project")
        else create_task_insert db current_user task_data now new_id
    else create_task_insert db current_user task_data now new_id
where
  /-- the assignee membership check and the INSERT (lines 46-68) -/
  create_task_insert (db : DB) (current_user : Nat) (task_data : TaskCreate)
      (now new_id : Nat) : Outcome Task :=
    if pyTruthyNat task_data.assignee_id then
      match check_project_access db task_data.project_id (task_data.assignee_id.getD 0) with
      | .error e => .error e
      | .ok _ => .ok (create_task_row db current_user task_data now new_id)
    else .ok (create_task_row db current_user task_data now new_id)
  /-- `db_task = Task(...)`, `db.add`, `db.commit` -/
  create_task_row (db : DB) (current_user : Nat) (task_data : TaskCreate)
      (now new_id : Nat) : Task × DB :=
    let db_task : Task :=
      { id := new_id
        title := task_data.title
        description := task_data.description
        project_id := task_data.project_id
        parent_task_id := task_data.parent_task_id
        assignee_id := task_data.assignee_id
        creator_id := current_user
        priority := task_data.priority
        status := task_data.status
        start_date := task_data.start_date
        due_date := task_data.due_date
        completed_at := none
        estimated_hours := task_data.estimated_hours
        actual_hours := none
        position := task_data.position
        is_archived := false
        created_at := now }
    (db_task, { db with tasks := db.tasks ++ [db_task] })

/-- The `for field, value in update_data.items(): if field != "status":
setattr(task, field, value)` loop of `update_task` (lines 161-165): apply
every provided field except `status`. -/
def applyTaskUpdateFields (t : Task) (u : TaskUpdate) : Task :=
  let t := match u.title with | some v => { t with title := v } | none => t
  let t := match u.description with | some v => { t with description := v } | none => t
  let t := match u.assignee_id with | some v => { t with assignee_id := v } | none => t
  let t := match u.priority with | some v => { t with priority := v } | none => t
  let t := match u.start_date with | some v => { t with start_date := v } | none => t
  let t := match u.due_date with | some v => { t with due_date := v } | none => t
  let t := match u.estimated_hours with | some v => { t with estimated_hours := v } | none => t
  let t := match u.actual_hours with | some v => { t with actual_hours := v } | none => t
  let t := match u.position with | some v => { t with position := v } | none => t
  match u.is_archived with | some v => { t with is_archived := v } | none => t

/-- `update_task` (`routers/tasks.py` lines 132-173).  `now` is the
`datetime.now()` written to `completed_at`. -/
def update_task (db : DB) (current_user task_id : Nat) (task_update : TaskUpdate)
    (now : Nat) : Outcome Task :=
  match firstTask db task_id with
  | none => .error (.http 404 "Task not found")
  | some task =>
    match check_project_access db task.project_id current_user with
    | .error e => .error e
    | .ok _ =>
      -- if task_update.assignee_id: the assignee must be a project member
      if pyTruthyNat (attrView task_update.assignee_id) then
        match check_project_access db task.project_id
            ((attrView task_update.assignee_id).getD 0) with
        | .error e => .error e
        | .ok _ => .ok (update_task_apply db task_id task task_update now)
      else .ok (update_task_apply db task_id task task_update now)
where
  /-- the `completed_at` special case (lines 155-159), the field loop, and
  the final `if task_update.status:` assignment (lines 167-168) -/
  update_task_apply (db : DB) (task_id : Nat) (task : Task)
      (task_update : TaskUpdate) (now : Nat) : Task × DB :=
    let task1 :=
      if task_update.status == some "done" && task.status != "done" then
        { task with completed_at := some now }
      else if task_update.status != some "done" && task.status == "done" then
        { task with completed_at := none }
      else task
    let task2 := applyTaskUpdateFields task1 task_update
    let task3 :=
      if pyTruthyStr task_update.status then
        { task2 with status := task_update.status.getD "" }
      else task2
    (task3, { db with
      tasks := updateFirstBy (fun t => t.id == task_id) (fun _ => task3) db.tasks })

/-- `delete_task` (`routers/tasks.py` lines 175-208): archives the task;
only the creator or an owner/admin member may do it. -/
def delete_task (db : DB) (current_user task_id : Nat) : Outcome String :=
  match firstTask db task_id with
  | none => .error (.http 404 "Task not found")
  | some task =>
    match check_project_access db task.project_id current_user with
    | .error e => .error e
    | .ok _ =>
      -- the handler re-queries the membership row (lines 194-197)
      let membership := findMembership db task.project_id current_user
      if task.creator_id != current_user then
        match membership with
        | none => .error (.py "AttributeError: NoneType object has no attribute role")
        | some m =>
          if !(m.role == "owner" || m.role == "admin") then
            .error (.http 403 "Insufficient permissions to delete this task")
          else .ok (delete_task_commit db task_id)
      else .ok (delete_task_commit db task_id)
where
  /-- `task.is_archived = True; db.commit()` -/
  delete_task_commit (db : DB) (task_id : Nat) : String × DB :=
    let tasks2 := updateFirstBy (fun t => t.id == task_id)
      (fun t => { t with is_archived := true }) db.tasks
    ("Task archived successfully", { db with tasks := tasks2 })

/-- Query parameters of `GET /tasks` (`routers/tasks.py` lines 70-78). -/
structure TaskFilters where
  project_id : Option Nat := none
  assignee_id : Option Nat := none
  status : Option String := none
  priority : Option String := none
  parent_task_id : Option Nat := none
deriving Repr, DecidableEq

/-- The WHERE clause `get_tasks` builds (lines 81-105): project scope,
optional filters (each only applied when the query value is truthy), and
`Task.is_archived == False`.  SQL `NULL == v` is not satisfied, hence the
`Option` equality on nullable columns. -/
def taskFilterPred (db : DB) (current_user : Nat) (f : TaskFilters) (t : Task) : Bool :=
  (if pyTruthyNat f.project_id then t.project_id == f.project_id.getD 0
   else accessibleProject db current_user t.project_id)
  && (if pyTruthyNat f.assignee_id then t.assignee_id == some (f.assignee_id.getD 0) else true)
  && (if pyTruthyStr f.status then t.status == f.status.getD "" else true)
  && (if pyTruthyStr f.priority then t.priority == f.priority.getD "" else true)
  && (if pyTruthyNat f.parent_task_id then t.parent_task_id == some (f.parent_task_id.getD 0) else true)
  && (t.is_archived == false)

/-- `get_tasks` (`routers/tasks.py` lines 70-110): when a `project_id`
filter is given its access is checked first; the result is the filtered
table ordered by `created_at` descending. -/
def get_tasks (db : DB) (current_user : Nat) (f : TaskFilters) :
    Except Err (List Task) :=
  let run : List Task :=
    sortBy (fun a b => b.created_at ≤ a.created_at)
      (db.tasks.filter (taskFilterPred db current_user f))
  if pyTruthyNat f.project_id then
    match check_project_access db (f.project_id.getD 0) current_user with
    | .error e => .error e
    | .ok _ => .ok run
  else .ok run

/-- `get_task` (`routers/tasks.py` lines 112-130): fetch by id (archived or
not), then require a membership in its project. -/
def get_task (db : DB) (current_user task_id : Nat) : Except Err Task :=
  match firstTask db task_id with
  | none => .error (.http 404 "Task not found")
  | some task =>
    match check_project_access db task.project_id current_user with
    | .error e => .error e
    | .ok _ => .ok task

/-- SQL `column >= value` on a nullable TIMESTAMP column: a NULL never
satisfies the comparison. -/
def colGe (c : Option Nat) (v : Nat) : Bool :=
  match c with
  | some x => v ≤ x
  | none => false

/-- SQL `column <= value` on a nullable TIMESTAMP column. -/
def colLe (c : Option Nat) (v : Nat) : Bool :=
  match c with
  | some x => x ≤ v
  | none => false

/-- Postgres ascending order on a nullable column, NULLS LAST, strictly. -/
def nullsLastLt (a b : Option Nat) : Bool :=
  match a, b with
  | some x, some y => x < y
  | some _, none => true
  | none, _ => false

/-- `order_by(Task.start_date, Task.due_date)` of the calendar query. -/
def calendarLe (a b : Task) : Bool :=
  nullsLastLt a.start_date b.start_date
  || (a.start_date == b.start_date && (nullsLastLt a.due_date b.due_date || a.due_date == b.due_date))

/-- The date window condition of `get_calendar_tasks` (lines 252-256):
start in window, or due in window, or the task spans the window. -/
def calendarWindowPred (start_date end_date : Nat) (t : Task) : Bool :=
  (colGe t.start_date start_date && colLe t.start_date end_date)
  || (colGe t.due_date start_date && colLe t.due_date end_date)
  || (colLe t.start_date start_date && colGe t.due_date end_date)

/-- `get_calendar_tasks` (`routers/tasks.py` lines 235-259): non-archived
tasks of the user's projects whose dates meet the window condition, ordered
by `start_date, due_date`.  The handler raises nothing itself. -/
def get_calendar_tasks (db : DB) (current_user : Nat) (start_date end_date : Nat) :
    List Task :=
  sortBy calendarLe
    (db.tasks.filter (fun t =>
      accessibleProject db current_user t.project_id
      && t.is_archived == false
      && calendarWindowPred start_date end_date t))

/-- Request body of `POST /projects` (`schemas.py`, `ProjectCreate`). -/
structure ProjectCreate where
  name : String
  description : Option String := none
  color : String := "#3498db"
deriving Repr, DecidableEq

/-- The Project row `create_project` builds (`routers/projects.py` lines
18-23). -/
def newProjectRow (current_user : Nat) (project_data : ProjectCreate)
    (now new_project_id : Nat) : Project :=
  { id := new_project_id
    name := project_data.name
    description := project_data.description
    color := project_data.color
    owner_id := current_user
    is_archived := false
    created_at := now }

/-- Store state after the FIRST `db.commit()` of `create_project`
(`routers/projects.py` line 26): the Project row is durably committed, the
owner membership does not exist yet. -/
def create_project_first_commit (db : DB) (current_user : Nat)
    (project_data : ProjectCreate) (now new_project_id : Nat) : DB :=
  { db with projects := db.projects ++ [newProjectRow current_user project_data now new_project_id] }

/-- `create_project` (`routers/projects.py` lines 11-38): commit the
Project row, then in a second transaction (second `db.commit()`, line 36)
add the creator as a member with role owner.  No branch raises. -/
def create_project (db : DB) (current_user : Nat) (project_data : ProjectCreate)
    (now new_project_id new_member_id : Nat) : Project × DB :=
  let db1 := create_project_first_commit db current_user project_data now new_project_id
  let db_member : ProjectMember :=
    { id := new_member_id
      project_id := new_project_id
      user_id := current_user
      role := "owner"
      joined_at := now }
  (newProjectRow current_user project_data now new_project_id,
   { db1 with members := db1.members ++ [db_member] })

/-- Detail of the unhandled `AttributeError` both delete handlers hit when
`membership` is `None` (`membership.role` on line 130 resp. line 230 of
`routers/comments.py`). -/
def noneRoleMsg : String :=
  "AttributeError: NoneType object has no attribute role"

/-- `delete_comment` (`routers/comments.py` lines 108-139).  The handler
fetches the comment, then the task (`task.project_id` is dereferenced
without a None check) and the actor's membership; a non-author actor with
no membership row crashes on `membership.role`. -/
def delete_comment (db : DB) (current_user comment_id : Nat) : Outcome String :=
  match firstComment db comment_id with
  | none => .error (.http 404 "Comment not found")
  | some comment =>
    match firstTask db comment.task_id with
    | none => .error (.py "AttributeError: NoneType object has no attribute project_id")
    | some task =>
      let membership := findMembership db task.project_id current_user
      if comment.user_id != current_user then
        match membership with
        | none => .error (.py noneRoleMsg)
        | some m =>
          if !(m.role == "owner" || m.role == "admin") then
            .error (.http 403 "Insufficient permissions to delete this comment")
          else .ok (delete_comment_commit db comment_id)
      else .ok (delete_comment_commit db comment_id)
where
  /-- `db.delete(comment); db.commit()` -/
  delete_comment_commit (db : DB) (comment_id : Nat) : String × DB :=
    let comments2 := removeFirstBy (fun c => c.id == comment_id) db.comments
    ("Comment deleted successfully", { db with comments := comments2 })

/-- `delete_attachment` (`routers/comments.py` lines 208-245): same
permission shape as `delete_comment` with the uploading user in place of
the author.  The blob removal (`os.remove`, already-absent files ignored)
is the external blob store and leaves the relational state alone. -/
def delete_attachment (db : DB) (current_user attachment_id : Nat) : Outcome String :=
  match firstAttachment db attachment_id with
  | none => .error (.http 404 "Attachment not found")
  | some attachment =>
    match firstTask db attachment.task_id with
    | none => .error (.py "AttributeError: NoneType object has no attribute project_id")
    | some task =>
      let membership := findMembership db task.project_id current_user
      if attachment.user_id != current_user then
        match membership with
        | none => .error (.py noneRoleMsg)
        | some m =>
          if !(m.role == "owner" || m.role == "admin") then
            .error (.http 403 "Insufficient permissions to delete this attachment")
          else .ok (delete_attachment_commit db attachment_id)
      else .ok (delete_attachment_commit db attachment_id)
where
  /-- `db.delete(attachment); db.commit()` -/
  delete_attachment_commit (db : DB) (attachment_id : Nat) : String × DB :=
    let attachments2 := removeFirstBy (fun a => a.id == attachment_id) db.attachments
    ("Attachment deleted successfully", { db with attachments := attachments2 })

/-- `delete_tag` (`routers/tags.py` lines 142-188): permission check
(creator, or owner/admin membership for a project tag; creator only for a
global tag), then the TaskTag usage count blocks the delete with a
count-carrying message. -/
def delete_tag (db : DB) (current_user tag_id : Nat) : Outcome String :=
  match firstTag db tag_id with
  | none => .error (.http 404 "Tag not found")
  | some tag =>
    -- `if tag.project_id:` (None and 0 are falsy)
    if pyTruthyNat tag.project_id then
      let membership := findMembership db (tag.project_id.getD 0) current_user
      if tag.created_by != current_user
          && (match membership with
              | none => true
              | some m => !(m.role == "owner" || m.role == "admin")) then
        .error (.http 403 "Insufficient permissions to delete this tag")
      else delete_tag_usage_gate db tag_id
    else
      if tag.created_by != current_user then
        .error (.http 403 "Only tag creator can delete this tag")
      else delete_tag_usage_gate db tag_id
where
  /-- the usage count (lines 177-183) and the delete (lines 185-188) -/
  delete_tag_usage_gate (db : DB) (tag_id : Nat) : Outcome String :=
    let usage_count := (db.task_tags.filter (fun tt => tt.tag_id == tag_id)).length
    if usage_count > 0 then
      .error (.http 400
        ("Tag is being used by " ++ toString usage_count ++ " task(s). Cannot delete."))
    else
      let tags2 := removeFirstBy (fun t => t.id == tag_id) db.tags
      .ok ("Tag deleted successfully", { db with tags := tags2 })

/-- `mark_notification_read` (`routers/tags.py` lines 207-228): fetch the
notification scoped to the acting user, 404 when absent, else set
`is_read = True`. -/
def mark_notification_read (db : DB) (current_user notification_id : Nat) :
    Outcome String :=
  match db.notifications.find?
      (fun n => n.id == notification_id && n.user_id == current_user) with
  | none => .error (.http 404 "Notification not found")
  | some _ =>
    let notifications2 :=
      updateFirstBy (fun n => n.id == notification_id && n.user_id == current_user)
        (fun n => { n with is_read := true }) db.notifications
    .ok ("Notification marked as read", { db with notifications := notifications2 })

/-- Effect of the bulk UPDATE of `mark_all_notifications_read` on one row:
rows of the acting user whose `is_read` is `False` get `is_read = True`,
every other row is untouched. -/
def markAllStep (current_user : Nat) (n : Notification) : Notification :=
  if n.user_id == current_user && n.is_read == false then
    { n with is_read := true }
  else n

/-- `mark_all_notifications_read` (`routers/tags.py` lines 230-243): the
bulk UPDATE sets `is_read = True` on the rows of the acting user whose
`is_read` is currently `False`; no branch raises. -/
def mark_all_notifications_read (db : DB) (current_user : Nat) : String × DB :=
  ("All notifications marked as read",
   { db with notifications := db.notifications.map (markAllStep current_user) })

/-- Notification table after `mark_notification_read` (errors roll back). -/
def markReadState (db : DB) (current_user notification_id : Nat) : DB :=
  runDB db (mark_notification_read db current_user notification_id)

/-- Store after `mark_all_notifications_read`. -/
def markAllState (db : DB) (current_user : Nat) : DB :=
  (mark_all_notifications_read db current_user).2

/-! ## Specification-side predicates

`specOverlaps` and `userIsMemberOf` are written from the words of the
specification ("a task counts as overlapping if its start falls inside,
its due falls inside, or it fully spans the window", inclusive boundaries;
"projects where the user has a membership"), to be compared with the
query the code builds. -/

/-- The window-overlap condition as the specification words it. -/
def specOverlaps (t : Task) (start_date end_date : Nat) : Prop :=
  (∃ s, t.start_date = some s ∧ start_date ≤ s ∧ s ≤ end_date)
  ∨ (∃ d, t.due_date = some d ∧ start_date ≤ d ∧ d ≤ end_date)
  ∨ ((∃ s, t.start_date = some s ∧ s ≤ start_date)
     ∧ (∃ d, t.due_date = some d ∧ end_date ≤ d))

/-- The user has a membership row for the project. -/
def userIsMemberOf (db : DB) (user_id project_id : Nat) : Prop :=
  ∃ m, m ∈ db.members ∧ m.user_id = user_id ∧ m.project_id = project_id

/-! ## Helper lemmas about the list primitives -/

theorem mem_insertSorted {le : α → α → Bool} {x a : α} {l : List α} :
    a ∈ insertSorted le x l ↔ a = x ∨ a ∈ l := by
  induction l with
  | nil => simp [insertSorted]
  | cons y ys ih =>
    simp only [insertSorted]
    split
    · simp
    · simp only [List.mem_cons, ih]
      tauto

theorem mem_sortBy {le : α → α → Bool} {a : α} {l : List α} :
    a ∈ sortBy le l ↔ a ∈ l := by
  induction l with
  | nil => simp [sortBy]
  | cons x xs ih => simp [sortBy, mem_insertSorted, ih]

theorem find?_updateFirstBy {p : α → Bool} {f : α → α} {l : List α} {x : α}
    (hx : l.find? p = some x) (hp : ∀ y, p y = true → p (f y) = true) :
    (updateFirstBy p f l).find? p = some (f x) := by
  induction l with
  | nil => simp at hx
  | cons a as ih =>
    by_cases h : p a = true
    · rw [List.find?_cons_of_pos _ h] at hx
      cases hx
      unfold updateFirstBy
      rw [if_pos h]
      exact List.find?_cons_of_pos _ (hp x h)
    · have h2 : p a = false := by revert h; cases p a <;> simp
      rw [List.find?_cons_of_neg _ (by simp [h2])] at hx
      unfold updateFirstBy
      rw [if_neg (by simp [h2])]
      rw [List.find?_cons_of_neg _ (by simp [h2])]
      exact ih hx

theorem updateFirstBy_idem {p : α → Bool} {f : α → α} (l : List α)
    (hp : ∀ y, p y = true → p (f y) = true) (hf : ∀ y, f (f y) = f y) :
    updateFirstBy p f (updateFirstBy p f l) = updateFirstBy p f l := by
  induction l with
  | nil => rfl
  | cons a as ih =>
    by_cases h : p a = true
    · simp [updateFirstBy, h, hp a h, hf a]
    · have h2 : p a = false := by revert h; cases p a <;> simp
      simp [updateFirstBy, h2, ih]

theorem colGe_eq_true {c : Option Nat} {v : Nat} :
    colGe c v = true ↔ ∃ x, c = some x ∧ v ≤ x := by
  cases c <;> simp [colGe]

theorem colLe_eq_true {c : Option Nat} {v : Nat} :
    colLe c v = true ↔ ∃ x, c = some x ∧ x ≤ v := by
  cases c <;> simp [colLe]

/-! ## Concrete fixtures used by the closed theorems and witnesses -/

/-- The empty store. -/
def emptyDB : DB :=
  { projects := [], members := [], tasks := [], tags := [], task_tags := []
    comments := [], attachments := [], notifications := [] }

/-- A membership row fixture. -/
def memberRow (id project_id user_id : Nat) (role : String) : ProjectMember :=
  { id := id, project_id := project_id, user_id := user_id, role := role
    joined_at := 0 }

/-- A plain task fixture: id 1 in project 1, created by user 1. -/
def baseTask : Task :=
  { id := 1, title := "t", description := none, project_id := 1
    parent_task_id := none, assignee_id := none, creator_id := 1
    priority := "medium", status := "todo", start_date := none
    due_date := none, completed_at := none, estimated_hours := none
    actual_hours := none, position := none, is_archived := false
    created_at := 0 }

/-- Store with user 1 a member of project 1. -/
def dbMember1 : DB := { emptyDB with members := [memberRow 1 1 1 "member"] }

/-- `dbMember1` plus a completed task: status done, `completed_at = 5`. -/
def dbDoneTask : DB :=
  { dbMember1 with tasks := [{ baseTask with status := "done", completed_at := some 5 }] }

/-- C1: the claim says an update of a done task that provides no `status`
field leaves `completed_at` untouched.  The code compares the absent field
(`None`) with `"done"`, finds them different, and clears `completed_at`:
updating the done task of `dbDoneTask` (completed_at = 5) with only a new
title yields status still "done" but `completed_at = null`. -/
theorem update_task_statusless_clears_completed_at :
    (update_task dbDoneTask 1 1 { title := some "x" } 99).toOption.map
        (fun r => (r.1.status, r.1.completed_at, r.1.title))
      = some ("done", none, "x") := rfl

/-- C2: the claimed invariant `status = done ↔ completed_at ≠ null` is
already violated by `create_task` with a caller-supplied status: the
handler stores the status verbatim and never sets `completed_at`, so the
created task has status "done" and `completed_at = null`. -/
theorem create_task_done_leaves_completed_at_null :
    (create_task dbMember1 1 { title := "t", status := "done", project_id := 1 } 10 1).toOption.map
        (fun r => (r.1.status, r.1.completed_at))
      = some ("done", none) := rfl

/-- C3: `create_project` commits the Project row in a first transaction
(line 26) and the owner membership only in a second one (line 36), so the
state after the first commit — project persisted, no membership row at
all — is a durable, observable store state, contradicting the claimed
both-or-neither atomicity; a completed run does yield exactly one owner
membership for the creator. -/
theorem create_project_partial_state_observable :
    ((create_project_first_commit emptyDB 1 { name := "P" } 10 1).projects.map Project.id = [1]
      ∧ (create_project_first_commit emptyDB 1 { name := "P" } 10 1).members = [])
    ∧ ((create_project emptyDB 1 { name := "P" } 10 1 1).2.members.filter
          (fun m => m.project_id == 1 && m.user_id == 1 && m.role == "owner")).length = 1 :=
  ⟨⟨rfl, rfl⟩, rfl⟩

/-- A comment fixture: comment 1 by user 1 on task 1. -/
def commentRow1 : TaskComment :=
  { id := 1, task_id := 1, user_id := 1, content := "c", is_edited := false
    created_at := 0 }

/-- An attachment fixture: attachment 1 uploaded by user 1 on task 1. -/
def attachmentRow1 : TaskAttachment :=
  { id := 1, task_id := 1, user_id := 1, filename := "f"
    original_filename := "o", file_path := "p", file_size := 1
    mime_type := none, created_at := 0 }

/-- Task 1 in project 1 with a comment and an attachment by user 1, and no
membership rows at all. -/
def dbNoMembership : DB :=
  { emptyDB with
    tasks := [baseTask]
    comments := [commentRow1]
    attachments := [attachmentRow1] }

/-- C4 counterexample: user 2 is neither the author of comment 1 nor a
member of its project; the claim predicts a typed 403 Forbidden for every
such actor, but the handler dies with an unhandled AttributeError on
`membership.role`. -/
theorem delete_comment_nonmember_counterexample :
    delete_comment dbNoMembership 2 1 = .error (.py noneRoleMsg)
    ∧ delete_comment dbNoMembership 2 1
        ≠ .error (.http 403 "Insufficient permissions to delete this comment") :=
  ⟨rfl, by decide⟩

/-- C6: a non-author (resp. non-uploader) actor with no membership row in
the task's project makes `delete_comment` / `delete_attachment` evaluate
`membership.role` with `membership = None`: evaluation ends in the
unhandled AttributeError, never reaching the typed Forbidden branch. -/
theorem delete_handlers_none_membership_dereference (db : DB) (current_user : Nat) :
    (∀ comment_id c t, firstComment db comment_id = some c →
      firstTask db c.task_id = some t →
      c.user_id ≠ current_user →
      findMembership db t.project_id current_user = none →
      delete_comment db current_user comment_id = .error (.py noneRoleMsg))
    ∧ (∀ attachment_id a t, firstAttachment db attachment_id = some a →
      firstTask db a.task_id = some t →
      a.user_id ≠ current_user →
      findMembership db t.project_id current_user = none →
      delete_attachment db current_user attachment_id = .error (.py noneRoleMsg)) := by
  constructor
  · intro comment_id c t hc ht hne hm
    simp only [delete_comment, hc, ht, hm]
    simp [hne]
  · intro attachment_id a t ha ht hne hm
    simp only [delete_attachment, ha, ht, hm]
    simp [hne]

/-- Witness for C6 at a concrete store. -/
theorem delete_handlers_none_membership_dereference_witness :
    delete_comment dbNoMembership 2 1 = .error (.py noneRoleMsg)
    ∧ delete_attachment dbNoMembership 2 1 = .error (.py noneRoleMsg) :=
  ⟨(delete_handlers_none_membership_dereference dbNoMembership 2).1
      1 commentRow1 baseTask rfl rfl (by decide) rfl,
   (delete_handlers_none_membership_dereference dbNoMembership 2).2
      1 attachmentRow1 baseTask rfl rfl (by decide) rfl⟩

/-- The task an archive-only update produces: `is_archived` set, and —
because the handler reads the absent status field as `None ≠ "done"` —
`completed_at` cleared when the task was done. -/
def archivedVersion (t : Task) : Task :=
  if t.status == "done" then { t with completed_at := none, is_archived := true }
  else { t with is_archived := true }

/-- Tasks table after an archive-only update of `task_id`. -/
def archiveTasksTable (db : DB) (task_id : Nat) (t : Task) : DB :=
  let tasks2 := updateFirstBy (fun x => x.id == task_id) (fun _ => archivedVersion t) db.tasks
  { db with tasks := tasks2 }

theorem update_task_apply_archive_only (db : DB) (task_id now : Nat) (t : Task) :
    update_task.update_task_apply db task_id t { is_archived := some true } now
      = (archivedVersion t, archiveTasksTable db task_id t) := by
  by_cases hs : (t.status == "done") = true <;>
    simp [update_task.update_task_apply, applyTaskUpdateFields, archivedVersion,
      archiveTasksTable, pyTruthyStr, hs]

theorem archivedVersion_id (t : Task) : (archivedVersion t).id = t.id := by
  unfold archivedVersion
  split <;> rfl

/-- C5: any project member — here one with role member or viewer who is not
the task's creator — can set `is_archived = true` through
`PUT /tasks/{task_id}`: `update_task` only requires membership and applies
`is_archived` like any other provided field, while `delete_task` refuses
the same actor with a 403.  The archived flag is persisted in the store. -/
theorem update_task_archives_for_plain_member (db : DB)
    (current_user task_id now : Nat) (t : Task) (m : ProjectMember)
    (ht : firstTask db task_id = some t)
    (hm : findMembership db t.project_id current_user = some m)
    (hrole : m.role = "member" ∨ m.role = "viewer")
    (hcreator : t.creator_id ≠ current_user) :
    (∃ r db2,
      update_task db current_user task_id { is_archived := some true } now = .ok (r, db2)
      ∧ r.is_archived = true ∧ r.id = t.id ∧ firstTask db2 task_id = some r)
    ∧ delete_task db current_user task_id
      = .error (.http 403 "Insufficient permissions to delete this task") := by
  have hfind : db.tasks.find? (fun x => x.id == task_id) = some t := ht
  have hpt : (t.id == task_id) = true := by
    have h2 := List.find?_some hfind
    simpa using h2
  constructor
  · have hstep : update_task db current_user task_id { is_archived := some true } now
        = .ok (update_task.update_task_apply db task_id t { is_archived := some true } now) := by
      simp [update_task, ht, check_project_access, hm, attrView, pyTruthyNat]
    rw [hstep, update_task_apply_archive_only]
    refine ⟨archivedVersion t, _, rfl, ?_, archivedVersion_id t, ?_⟩
    · unfold archivedVersion
      split <;> rfl
    · show (archiveTasksTable db task_id t).tasks.find? (fun x => x.id == task_id)
        = some (archivedVersion t)
      unfold archiveTasksTable
      refine find?_updateFirstBy hfind ?_
      intro y _
      rw [archivedVersion_id]
      exact hpt
  · simp only [delete_task, ht, check_project_access, hm]
    have hne : (t.creator_id != current_user) = true := by simp [hcreator]
    rw [if_pos hne]
    rcases hrole with h | h <;> simp [h]

/-- Store for the C5 witness: user 1 owns project 1 and created task 1,
user 2 is a plain member. -/
def dbPlainMember : DB :=
  { emptyDB with
    members := [memberRow 1 1 1 "owner", memberRow 2 1 2 "member"]
    tasks := [baseTask] }

/-- Witness for C5: user 2 (role member, not the creator) archives task 1
through the update route and is refused by the delete route. -/
theorem update_task_archives_for_plain_member_witness :
    firstTask dbPlainMember 1 = some baseTask
    ∧ baseTask.creator_id ≠ 2
    ∧ ((∃ r db2,
        update_task dbPlainMember 2 1 { is_archived := some true } 7 = .ok (r, db2)
        ∧ r.is_archived = true ∧ r.id = baseTask.id ∧ firstTask db2 1 = some r)
      ∧ delete_task dbPlainMember 2 1
        = .error (.http 403 "Insufficient permissions to delete this task")) :=
  ⟨rfl, by decide,
   update_task_archives_for_plain_member dbPlainMember 2 1 7 baseTask
     (memberRow 2 1 2 "member") rfl rfl (Or.inl rfl) (by decide)⟩

/-- C9: `get_tasks` unconditionally filters `is_archived == False`, so an
archived task is absent from every listing whatever the filter values,
while `get_task` fetches purely by id and returns the archived task to any
member of its project. -/
theorem archived_hidden_from_listing_but_returned_by_id :
    (∀ db current_user f l t, get_tasks db current_user f = .ok l →
      t.is_archived = true → t ∉ l)
    ∧ (∀ db current_user task_id t m,
      firstTask db task_id = some t → t.is_archived = true →
      findMembership db t.project_id current_user = some m →
      get_task db current_user task_id = .ok t) := by
  constructor
  · intro db current_user f l t hok harch hmem
    have hl : l = sortBy (fun a b => b.created_at ≤ a.created_at)
        (db.tasks.filter (taskFilterPred db current_user f)) := by
      unfold get_tasks at hok
      split at hok
      · split at hok
        · cases hok
        · cases hok; rfl
      · cases hok; rfl
    rw [hl, mem_sortBy, List.mem_filter] at hmem
    have hpred := hmem.2
    simp [taskFilterPred, harch] at hpred
  · intro db current_user task_id t m h1 _ h3
    simp only [get_task, h1, check_project_access, h3]

/-- Store for the C9 witness: project 1 has only the archived task 1. -/
def dbArchivedTask : DB :=
  { emptyDB with
    members := [memberRow 1 1 1 "member"]
    tasks := [{ baseTask with is_archived := true }] }

/-- Witness for C9: the archived task is excluded from the unfiltered
listing but returned by `GET /tasks/1`. -/
theorem archived_hidden_witness :
    get_tasks dbArchivedTask 1 {} = .ok []
    ∧ ({ baseTask with is_archived := true } : Task).is_archived = true
    ∧ ({ baseTask with is_archived := true } : Task) ∉ ([] : List Task)
    ∧ get_task dbArchivedTask 1 1 = .ok { baseTask with is_archived := true } :=
  ⟨rfl, rfl,
   archived_hidden_from_listing_but_returned_by_id.1 dbArchivedTask 1 {} []
     { baseTask with is_archived := true } rfl rfl,
   archived_hidden_from_listing_but_returned_by_id.2 dbArchivedTask 1 1
     { baseTask with is_archived := true } (memberRow 1 1 1 "member") rfl rfl rfl⟩

/-- The WHERE-clause date condition coincides with the spec's wording of
window overlap. -/
theorem calendarWindowPred_eq_true {t : Task} {s e : Nat} :
    calendarWindowPred s e t = true ↔ specOverlaps t s e := by
  unfold calendarWindowPred specOverlaps
  cases hs : t.start_date <;> cases hd : t.due_date <;>
    simp [colGe, colLe, and_assoc, or_assoc]

/-- Membership side of the calendar query. -/
theorem accessibleProject_eq_true {db : DB} {current_user project_id : Nat} :
    accessibleProject db current_user project_id = true
      ↔ userIsMemberOf db current_user project_id := by
  simp only [accessibleProject, userIsMemberOf, List.any_eq_true,
    Bool.and_eq_true, beq_iff_eq]

/-- C7: `get_calendar_tasks` returns exactly the non-archived tasks of the
projects the user is a member of whose `[start_date, due_date]` data
overlaps the requested window in the spec's sense: start inside the window,
or due inside the window, or spanning it, boundaries inclusive (on the
nullable date columns a NULL never satisfies a comparison). -/
theorem get_calendar_tasks_exact (db : DB) (current_user start_date end_date : Nat)
    (t : Task) :
    t ∈ get_calendar_tasks db current_user start_date end_date ↔
      t ∈ db.tasks ∧ userIsMemberOf db current_user t.project_id
      ∧ t.is_archived = false ∧ specOverlaps t start_date end_date := by
  unfold get_calendar_tasks
  rw [mem_sortBy, List.mem_filter]
  constructor
  · rintro ⟨hmem, hcond⟩
    simp only [Bool.and_eq_true] at hcond
    obtain ⟨⟨hacc, harch⟩, hwin⟩ := hcond
    exact ⟨hmem, accessibleProject_eq_true.1 hacc, by simpa using harch,
      calendarWindowPred_eq_true.1 hwin⟩
  · rintro ⟨hmem, hacc, harch, hover⟩
    refine ⟨hmem, ?_⟩
    simp only [Bool.and_eq_true]
    exact ⟨⟨accessibleProject_eq_true.2 hacc, by simp [harch]⟩,
      calendarWindowPred_eq_true.2 hover⟩

theorem markAllStep_idem (current_user : Nat) (n : Notification) :
    markAllStep current_user (markAllStep current_user n) = markAllStep current_user n := by
  unfold markAllStep
  by_cases h : (n.user_id == current_user && n.is_read == false) = true
  · rw [if_pos h]
    simp
  · rw [if_neg h, if_neg h]

/-- Notification table rewrite performed by `mark_notification_read`. -/
def markReadTable (db : DB) (current_user notification_id : Nat) : DB :=
  let notifications2 :=
    updateFirstBy (fun n => n.id == notification_id && n.user_id == current_user)
      (fun n => { n with is_read := true }) db.notifications
  { db with notifications := notifications2 }

/-- The store after `mark_notification_read`, as a case split. -/
theorem markReadState_eq (db : DB) (current_user notification_id : Nat) :
    markReadState db current_user notification_id =
      match db.notifications.find?
          (fun n => n.id == notification_id && n.user_id == current_user) with
      | none => db
      | some _ => markReadTable db current_user notification_id := by
  unfold markReadState mark_notification_read runDB markReadTable
  cases db.notifications.find?
      (fun n => n.id == notification_id && n.user_id == current_user) <;> rfl

/-- C10: marking one notification read and marking all read are idempotent
on the store, and the bulk mark-all rewrites exactly the acting user's
unread rows to read, touching no other row, field, or table. -/
theorem notifications_read_idempotent_and_exact :
    (∀ db current_user notification_id,
      markReadState (markReadState db current_user notification_id)
          current_user notification_id
        = markReadState db current_user notification_id)
    ∧ (∀ db current_user,
      markAllState (markAllState db current_user) current_user
        = markAllState db current_user)
    ∧ (∀ (db : DB) (current_user i : Nat),
      (markAllState db current_user).notifications[i]?
        = (db.notifications[i]?).map (fun (n : Notification) =>
            if n.user_id = current_user ∧ n.is_read = false then
              { n with is_read := true }
            else n))
    ∧ (∀ db current_user,
      (markAllState db current_user).projects = db.projects
      ∧ (markAllState db current_user).tasks = db.tasks
      ∧ (markAllState db current_user).members = db.members
      ∧ (markAllState db current_user).tags = db.tags
      ∧ (markAllState db current_user).task_tags = db.task_tags
      ∧ (markAllState db current_user).comments = db.comments
      ∧ (markAllState db current_user).attachments = db.attachments) := by
  refine ⟨?_, ?_, ?_, ?_⟩
  · intro db current_user notification_id
    cases hx : db.notifications.find?
        (fun n => n.id == notification_id && n.user_id == current_user) with
    | none =>
      have h1 : markReadState db current_user notification_id = db := by
        rw [markReadState_eq, hx]
      rw [h1]
      exact h1
    | some x =>
      have hp : ∀ y : Notification,
          (y.id == notification_id && y.user_id == current_user) = true →
          (({ y with is_read := true } : Notification).id == notification_id
            && ({ y with is_read := true } : Notification).user_id == current_user) = true := by
        intro y hy
        simpa using hy
      have hf : ∀ y : Notification,
          ({ ({ y with is_read := true } : Notification) with is_read := true } : Notification)
            = { y with is_read := true } :=
        fun y => rfl
      have h1 : markReadState db current_user notification_id
          = markReadTable db current_user notification_id := by
        rw [markReadState_eq, hx]
      have hfind2 : (markReadTable db current_user notification_id).notifications.find?
            (fun n => n.id == notification_id && n.user_id == current_user)
          = some { x with is_read := true } :=
        find?_updateFirstBy hx hp
      rw [h1, markReadState_eq, hfind2]
      show markReadTable (markReadTable db current_user notification_id)
          current_user notification_id = markReadTable db current_user notification_id
      simp only [markReadTable]
      congr 1
      exact updateFirstBy_idem db.notifications hp hf
  · intro db current_user
    simp only [markAllState, mark_all_notifications_read]
    have : (db.notifications.map (markAllStep current_user)).map (markAllStep current_user)
        = db.notifications.map (markAllStep current_user) := by
      rw [List.map_map]
      have hcomp : markAllStep current_user ∘ markAllStep current_user
          = markAllStep current_user := funext (markAllStep_idem current_user)
      rw [hcomp]
    simp [this]
  · intro db current_user i
    simp only [markAllState, mark_all_notifications_read, List.getElem?_map]
    cases db.notifications[i]? with
    | none => rfl
    | some n =>
      show some (markAllStep current_user n)
        = some (if n.user_id = current_user ∧ n.is_read = false then
            { n with is_read := true } else n)
      congr 1
      unfold markAllStep
      by_cases h1 : n.user_id = current_user <;> by_cases h2 : n.is_read = false <;>
        simp [h1, h2]
  · intro db current_user
    exact ⟨rfl, rfl, rfl, rfl, rfl, rfl, rfl⟩

/-- Comments table after a successful `delete_comment`. -/
def commentsAfterDelete (db : DB) (comment_id : Nat) : DB :=
  let comments2 := removeFirstBy (fun c => c.id == comment_id) db.comments
  { db with comments := comments2 }

/-- C4 (amended): `delete_comment` on an existing comment succeeds iff the
actor is the author or holds an owner/admin membership in the comment's
task's project; a non-author actor holding a membership with another role
gets the typed 403 Forbidden and the store — hence the comment row — is
unchanged; but a non-author actor with NO membership row gets an unhandled
AttributeError instead of a typed denial (store unchanged there too). -/
theorem delete_comment_policy (db : DB) (current_user comment_id : Nat)
    (c : TaskComment) (t : Task)
    (hc : firstComment db comment_id = some c)
    (ht : firstTask db c.task_id = some t) :
    (c.user_id = current_user →
      delete_comment db current_user comment_id
        = .ok ("Comment deleted successfully", commentsAfterDelete db comment_id))
    ∧ (∀ m, c.user_id ≠ current_user →
      findMembership db t.project_id current_user = some m →
      (m.role = "owner" ∨ m.role = "admin") →
      delete_comment db current_user comment_id
        = .ok ("Comment deleted successfully", commentsAfterDelete db comment_id))
    ∧ (∀ m, c.user_id ≠ current_user →
      findMembership db t.project_id current_user = some m →
      ¬(m.role = "owner" ∨ m.role = "admin") →
      delete_comment db current_user comment_id
        = .error (.http 403 "Insufficient permissions to delete this comment")
      ∧ runDB db (delete_comment db current_user comment_id) = db)
    ∧ (c.user_id ≠ current_user →
      findMembership db t.project_id current_user = none →
      delete_comment db current_user comment_id = .error (.py noneRoleMsg)) := by
  refine ⟨?_, ?_, ?_, ?_⟩
  · intro hauth
    simp [delete_comment, hc, ht, hauth, commentsAfterDelete,
      delete_comment.delete_comment_commit]
  · intro m hne hm hrole
    simp only [delete_comment, hc, ht, hm]
    rcases hrole with h | h <;>
      simp [hne, h, commentsAfterDelete, delete_comment.delete_comment_commit]
  · intro m hne hm hrole
    have hres : delete_comment db current_user comment_id
        = .error (.http 403 "Insufficient permissions to delete this comment") := by
      simp only [delete_comment, hc, ht, hm]
      have hr2 : (m.role == "owner" || m.role == "admin") = false := by
        cases hb : (m.role == "owner" || m.role == "admin") with
        | false => rfl
        | true =>
          exfalso
          apply hrole
          simpa using hb
      simp [hne, hr2]
    exact ⟨hres, by rw [hres]; rfl⟩
  · intro hne hm
    simp only [delete_comment, hc, ht, hm]
    simp [hne]

/-- Store for the C4 witness: comment 1 by user 1 on task 1 of project 1;
user 3 is an admin member (not the author). -/
def dbAdminMember : DB :=
  { emptyDB with
    members := [memberRow 1 1 3 "admin"]
    tasks := [baseTask]
    comments := [commentRow1] }

/-- Witness for C4 (amended) at a concrete store: the admin non-author
deletes the comment. -/
theorem delete_comment_policy_witness :
    firstComment dbAdminMember 1 = some commentRow1
    ∧ delete_comment dbAdminMember 3 1
      = .ok ("Comment deleted successfully", commentsAfterDelete dbAdminMember 1) :=
  ⟨rfl,
   (delete_comment_policy dbAdminMember 3 1 commentRow1 baseTask rfl rfl).2.1
     (memberRow 1 1 3 "admin") (by decide) rfl (Or.inr rfl)⟩

/-- A global tag (project_id null) created by user 1. -/
def globalTag1 : Tag :=
  { id := 1, name := "g", color := "#95a5a6", project_id := none
    created_by := 1, created_at := 0 }

/-- The global tag referenced by one TaskTag row. -/
def dbTagUsed : DB :=
  { emptyDB with
    tags := [globalTag1]
    task_tags := [{ id := 1, task_id := 1, tag_id := 1 }] }

/-- C8 counterexample: with one TaskTag referencing tag 1 (N = 1), user 2 —
not the creator — gets the 403 permission error, whose message does not
carry the reference count; the claimed count-carrying failure message is
not what this call returns. -/
theorem delete_tag_unpermitted_counterexample :
    delete_tag dbTagUsed 2 1 = .error (.http 403 "Only tag creator can delete this tag")
    ∧ delete_tag dbTagUsed 2 1
      ≠ .error (.http 400 "Tag is being used by 1 task(s). Cannot delete.") :=
  ⟨rfl, by decide⟩

/-- C8 (amended): for an actor who passes the permission check (the tag's
creator, or an owner/admin member of a project tag's project), deleting a
tag referenced by N > 0 TaskTag rows fails with the count-carrying message
and the store is unchanged (no Tag or TaskTag row deleted); with N = 0 the
Tag row is removed.  An actor failing the permission check fails earlier
with a 403 that does not carry the count. -/
theorem delete_tag_usage_guard (db : DB) (current_user tag_id n : Nat) (tag : Tag)
    (htag : firstTag db tag_id = some tag)
    (hperm : tag.created_by = current_user
      ∨ (pyTruthyNat tag.project_id = true ∧ ∃ m,
          findMembership db (tag.project_id.getD 0) current_user = some m
          ∧ (m.role = "owner" ∨ m.role = "admin")))
    (hn : n = (db.task_tags.filter (fun tt => tt.tag_id == tag_id)).length) :
    (0 < n →
      delete_tag db current_user tag_id
        = .error (.http 400
            ("Tag is being used by " ++ toString n ++ " task(s). Cannot delete."))
      ∧ runDB db (delete_tag db current_user tag_id) = db)
    ∧ (n = 0 →
      delete_tag db current_user tag_id
        = .ok ("Tag deleted successfully",
            { db with tags := removeFirstBy (fun x => x.id == tag_id) db.tags })) := by
  have hgate : delete_tag db current_user tag_id
      = delete_tag.delete_tag_usage_gate db tag_id := by
    simp only [delete_tag, htag]
    rcases hperm with h | ⟨htr, m, hm, hrole⟩
    · by_cases htr : pyTruthyNat tag.project_id = true
      · simp [htr, h]
      · simp [htr, h]
    · rcases hrole with h | h <;> simp [htr, hm, h]
  constructor
  · intro hpos
    have hres : delete_tag db current_user tag_id
        = .error (.http 400
            ("Tag is being used by " ++ toString n ++ " task(s). Cannot delete.")) := by
      rw [hgate]
      simp only [delete_tag.delete_tag_usage_gate]
      rw [← hn, if_pos hpos]
    exact ⟨hres, by rw [hres]; rfl⟩
  · intro hzero
    rw [hgate]
    simp only [delete_tag.delete_tag_usage_gate]
    rw [← hn, if_neg (by omega)]

/-- The unused global tag, for the C8 witness. -/
def dbTagUnused : DB := { emptyDB with tags := [globalTag1] }

/-- Witness for C8 (amended): the creator deletes the unreferenced global
tag (N = 0). -/
theorem delete_tag_usage_guard_witness :
    firstTag dbTagUnused 1 = some globalTag1
    ∧ delete_tag dbTagUnused 1 1
      = .ok ("Tag deleted successfully",
          { dbTagUnused with tags := removeFirstBy (fun x => x.id == 1) dbTagUnused.tags }) :=
  ⟨rfl,
   (delete_tag_usage_guard dbTagUnused 1 1 0 globalTag1 rfl (Or.inl rfl) rfl).2 rfl⟩

end TodoApp
